import Mathlib

/-!
Shallow embedding of `src/pyattck/attck.py` (the `Attck` facade class).

The embedding models:
  * raw STIX-like nodes of the graph-exchange document (`RawNode`),
  * the parsed documents (`GraphDoc`, `DatasetDoc`) with Python dict
    truthiness (`not d` is true exactly when the dict is empty),
  * the class-level state of `Attck` (`ClassState`: the two cached JSON
    documents — `__ENTERPRISE_ATTCK_JSON`, `__ENTERPRISE_GENERATED_DATA_JSON` —
    plus an object-allocation counter used to model Python object identity,
    and the `Configuration` class attribute dictionary),
  * the per-instance state (`AttckInstance`: `subtechniques` and the six
    per-kind caches `__tactics` .. `__malwares`, which the source assigns
    through `self.` and are therefore instance attributes),
  * the dataset provider `AttckDatasets` as an abstract record of fetch
    functions; every call into it is recorded as an `Event`,
  * `__load_data`, `update`, `__init__` and the six collection properties.

Entity construction (`AttckActor(...)`, `AttckTechnique(...)`, ...) is
modelled by `TypedEntity`, which carries a `serial` number drawn from the
process-wide allocation counter: two entities constructed by distinct
constructor calls carry distinct serials, so serial equality models Python
object identity for entities.
-/

namespace PyAttck

/-- A raw node of the graph-exchange document: one element of the
document's top-level `objects` list.  `id` and `type` are the fields the
source reads (`group['type']`, etc.); all remaining key/value pairs are
kept opaque in `fields`. -/
structure RawNode where
  id : String
  type : String
  fields : List (String × String)
deriving DecidableEq, Repr

/-- The parsed graph-exchange JSON document.  `objects` is `none` when the
top-level `"objects"` key is absent (subscripting then raises `KeyError`);
`extraKeys` counts the other top-level keys, which only matters for Python
truthiness of the dict. -/
structure GraphDoc where
  objects : Option (List RawNode)
  extraKeys : Nat
deriving DecidableEq, Repr

/-- Python truthiness of the graph document dict: falsy iff empty. -/
def GraphDoc.isTruthy (d : GraphDoc) : Bool :=
  d.objects.isSome || d.extraKeys != 0

/-- The parsed enrichment (generated-data) JSON document, kept abstract:
`records` counts its entries, which is all Python truthiness observes. -/
structure DatasetDoc where
  records : Nat
deriving DecidableEq, Repr

/-- Python truthiness of the enrichment document dict: falsy iff empty. -/
def DatasetDoc.isTruthy (d : DatasetDoc) : Bool :=
  d.records != 0

/-- Truthiness of the class attribute `__ENTERPRISE_ATTCK_JSON`:
`None` is falsy, a dict is falsy iff empty. -/
def truthyGraph : Option GraphDoc → Bool
  | none => false
  | some d => d.isTruthy

/-- Truthiness of the class attribute `__ENTERPRISE_GENERATED_DATA_JSON`. -/
def truthyDataset : Option DatasetDoc → Bool
  | none => false
  | some d => d.isTruthy

/-- A constructed entity object (`AttckTactic`, `AttckTechnique`,
`AttckMitigation`, `AttckActor`, `AttckTools`, `AttckMalware`).  `kind` is
the node type the constructing property filtered on, `node` is the raw
node whose key/value pairs were passed as `**kwargs`, and `serial` models
Python object identity: each constructor call consumes a fresh serial. -/
structure TypedEntity where
  serial : Nat
  kind : String
  node : RawNode
deriving DecidableEq, Repr

/-- The `AttckDatasets` provider (module `.datasets`, external to this
source file): `mitre(force, subtechniques)` returns the graph-exchange
document, `generated_attck_data(force)` the enrichment document. -/
structure DatasetProvider where
  mitre : Bool → Bool → GraphDoc
  generated_attck_data : Bool → DatasetDoc

/-- Observable calls made while running a method: fetches into the
`AttckDatasets` provider and `Configuration().set(...)` invocations. -/
inductive Event where
  | mitreCall (force subtechniques : Bool)
  | generatedDataCall (force : Bool)
  | configSetCall (attckJsonPath datasetJsonPath : Option String)
deriving DecidableEq, Repr

/-- Class-level (process-wide) state: the two cached documents stored on
the `Attck` class object, the object-allocation counter, and the attribute
dictionary of the `Configuration` class object (an association list,
newest binding first). -/
structure ClassState where
  enterpriseAttckJson : Option GraphDoc
  enterpriseGeneratedDataJson : Option DatasetDoc
  objectCounter : Nat
  configAttrs : List (String × String)
deriving DecidableEq, Repr

/-- Per-instance state of one `Attck` object: the `subtechniques` flag and
the six per-kind entity caches (`self.__tactics` .. `self.__malwares`;
`none` models the class-level default `None` that an instance sees before
its first access of the corresponding property). -/
structure AttckInstance where
  subtechniques : Bool
  tacticsCache : Option (List TypedEntity)
  techniquesCache : Option (List TypedEntity)
  mitigationsCache : Option (List TypedEntity)
  actorsCache : Option (List TypedEntity)
  toolsCache : Option (List TypedEntity)
  malwaresCache : Option (List TypedEntity)
deriving DecidableEq, Repr

/-- A freshly constructed instance: no per-kind cache is populated yet. -/
def freshInstance (sub : Bool) : AttckInstance :=
  ⟨sub, none, none, none, none, none, none⟩

/-- Python errors the modelled code can raise while reading the cached
document: subscripting `None` raises `TypeError`, a missing dict key
raises `KeyError`. -/
inductive PyError where
  | typeError
  | keyError
deriving DecidableEq, Repr

/-- Evaluation of `self.__ENTERPRISE_ATTCK_JSON['objects']` inside the
collection properties. -/
def getObjects : Option GraphDoc → Except PyError (List RawNode)
  | none => .error .typeError
  | some d =>
    match d.objects with
    | none => .error .keyError
    | some ns => .ok ns

/-- The entity-building loop shared by the six collection properties:
`for node in objects: if node['type'] == tag: append Ctor(attck_obj=..., **node)`.
Threads the allocation counter so each constructed entity gets a fresh
serial; returns the built list and the advanced counter. -/
def buildEntities (tag : String) (ctr : Nat) : List RawNode → List TypedEntity × Nat
  | [] => ([], ctr)
  | n :: rest =>
    if n.type == tag then
      let r := buildEntities tag (ctr + 1) rest
      (⟨ctr, tag, n⟩ :: r.1, r.2)
    else
      buildEntities tag ctr rest

/-- Embeds `Attck.__load_data(self, force=False)`: each document is fetched only
when the corresponding class attribute is falsy (`if not
Attck.__ENTERPRISE_ATTCK_JSON`); the `subtechniques` flag selects the
`mitre` call variant.  Returns the new class state and the provider calls
made. -/
def loadData (p : DatasetProvider) (subtechniques force : Bool) (cs : ClassState) :
    ClassState × List Event :=
  let (cs1, ev1) :=
    if !truthyGraph cs.enterpriseAttckJson then
      if subtechniques then
        ({cs with enterpriseAttckJson := some (p.mitre force true)},
         [Event.mitreCall force true])
      else
        ({cs with enterpriseAttckJson := some (p.mitre force false)},
         [Event.mitreCall force false])
    else (cs, [])
  let (cs2, ev2) :=
    if !truthyDataset cs1.enterpriseGeneratedDataJson then
      ({cs1 with enterpriseGeneratedDataJson := some (p.generated_attck_data force)},
       [Event.generatedDataCall force])
    else (cs1, [])
  (cs2, ev1 ++ ev2)

/-- Embeds `Attck.update(self)`: `self.__load_data(force=True)`. -/
def update (p : DatasetProvider) (inst : AttckInstance) (cs : ClassState) :
    ClassState × List Event :=
  loadData p inst.subtechniques true cs

/-- Whether an identifier begins with two underscores. -/
def hasDunderStart (s : String) : Bool :=
  match s.data with
  | '_' :: '_' :: _ => true
  | _ => false

/-- Whether an identifier ends with two underscores. -/
def hasDunderEnd (s : String) : Bool :=
  match s.data.reverse with
  | '_' :: '_' :: _ => true
  | _ => false

/-- Python private-name mangling: inside the body of class `cls`, an
identifier with two leading underscores and at most one trailing
underscore is rewritten to `_cls` followed by the identifier. -/
def mangle (cls attr : String) : String :=
  if hasDunderStart attr && !hasDunderEnd attr then "_" ++ cls ++ attr
  else attr

/-- Setting an attribute on a class object: prepend the binding to the
attribute dictionary (lookup finds the newest binding first). -/
def setAttr (store : List (String × String)) (k v : String) :
    List (String × String) :=
  (k, v) :: store

/-- The `config_path` step of `Attck.__init__`: `if config_path:
Configuration.__CONFIG_FILE = config_path`, executed inside the body of
class `Attck`, so the attribute name is mangled with the `Attck` class
name before the assignment lands on the `Configuration` class object. -/
def applyConfigPath (config_path : Option String) (cs : ClassState) : ClassState :=
  match config_path with
  | some cp =>
    {cs with configAttrs := setAttr cs.configAttrs (mangle "Attck" "__CONFIG_FILE") cp}
  | none => cs

/-- Embeds `Attck.__init__(self, subtechniques=False, attck_json=None,
dataset_json=None, config_path=None, force=False)`: stores
`subtechniques` on the instance; runs the `config_path` step; if
`attck_json or dataset_json`, calls `Configuration().set(...)`; if
`force`, calls `Configuration().set()`; finally calls
`self.__load_data()` — with `force` left at its default `False`.
Returns the new class state, the new instance, and the calls made. -/
def attckInit (p : DatasetProvider) (subtechniques : Bool)
    (attck_json dataset_json config_path : Option String) (force : Bool)
    (cs : ClassState) : ClassState × AttckInstance × List Event :=
  let cs1 := applyConfigPath config_path cs
  let ev1 : List Event :=
    if attck_json.isSome || dataset_json.isSome then
      [Event.configSetCall attck_json dataset_json]
    else []
  let ev2 : List Event :=
    if force then [Event.configSetCall none none] else []
  let r := loadData p subtechniques false cs1
  (r.1, freshInstance subtechniques, ev1 ++ ev2 ++ r.2)

/-- Embeds `Attck.tactics`: on a cache miss builds `AttckTactic` entities from the
nodes with `type == 'x-mitre-tactic'` and stores the list in
`self.__tactics` (the assignment `self.__tactics = []` happens before the
document subscript, so on a `KeyError`/`TypeError` the empty list stays
cached and the error propagates). -/
def tacticsProp (inst : AttckInstance) (cs : ClassState) :
    Except PyError (List TypedEntity) × AttckInstance × ClassState :=
  match inst.tacticsCache with
  | some es => (.ok es, inst, cs)
  | none =>
    match getObjects cs.enterpriseAttckJson with
    | .error e => (.error e, {inst with tacticsCache := some []}, cs)
    | .ok ns =>
      let r := buildEntities "x-mitre-tactic" cs.objectCounter ns
      (.ok r.1, {inst with tacticsCache := some r.1}, {cs with objectCounter := r.2})

/-- Embeds `Attck.techniques`: as `tacticsProp`, with `type == 'attack-pattern'`
and cache `self.__techniques`. -/
def techniquesProp (inst : AttckInstance) (cs : ClassState) :
    Except PyError (List TypedEntity) × AttckInstance × ClassState :=
  match inst.techniquesCache with
  | some es => (.ok es, inst, cs)
  | none =>
    match getObjects cs.enterpriseAttckJson with
    | .error e => (.error e, {inst with techniquesCache := some []}, cs)
    | .ok ns =>
      let r := buildEntities "attack-pattern" cs.objectCounter ns
      (.ok r.1, {inst with techniquesCache := some r.1}, {cs with objectCounter := r.2})

/-- Embeds `Attck.mitigations`: `type == 'course-of-action'`, cache
`self.__mitigations`. -/
def mitigationsProp (inst : AttckInstance) (cs : ClassState) :
    Except PyError (List TypedEntity) × AttckInstance × ClassState :=
  match inst.mitigationsCache with
  | some es => (.ok es, inst, cs)
  | none =>
    match getObjects cs.enterpriseAttckJson with
    | .error e => (.error e, {inst with mitigationsCache := some []}, cs)
    | .ok ns =>
      let r := buildEntities "course-of-action" cs.objectCounter ns
      (.ok r.1, {inst with mitigationsCache := some r.1}, {cs with objectCounter := r.2})

/-- Embeds `Attck.actors`: `type == 'intrusion-set'`, cache `self.__actors`. -/
def actorsProp (inst : AttckInstance) (cs : ClassState) :
    Except PyError (List TypedEntity) × AttckInstance × ClassState :=
  match inst.actorsCache with
  | some es => (.ok es, inst, cs)
  | none =>
    match getObjects cs.enterpriseAttckJson with
    | .error e => (.error e, {inst with actorsCache := some []}, cs)
    | .ok ns =>
      let r := buildEntities "intrusion-set" cs.objectCounter ns
      (.ok r.1, {inst with actorsCache := some r.1}, {cs with objectCounter := r.2})

/-- Embeds `Attck.tools`: `type == 'tool'`, cache `self.__tools`. -/
def toolsProp (inst : AttckInstance) (cs : ClassState) :
    Except PyError (List TypedEntity) × AttckInstance × ClassState :=
  match inst.toolsCache with
  | some es => (.ok es, inst, cs)
  | none =>
    match getObjects cs.enterpriseAttckJson with
    | .error e => (.error e, {inst with toolsCache := some []}, cs)
    | .ok ns =>
      let r := buildEntities "tool" cs.objectCounter ns
      (.ok r.1, {inst with toolsCache := some r.1}, {cs with objectCounter := r.2})

/-- Embeds `Attck.malwares`: `type == 'malware'`, cache `self.__malwares`. -/
def malwaresProp (inst : AttckInstance) (cs : ClassState) :
    Except PyError (List TypedEntity) × AttckInstance × ClassState :=
  match inst.malwaresCache with
  | some es => (.ok es, inst, cs)
  | none =>
    match getObjects cs.enterpriseAttckJson with
    | .error e => (.error e, {inst with malwaresCache := some []}, cs)
    | .ok ns =>
      let r := buildEntities "malware" cs.objectCounter ns
      (.ok r.1, {inst with malwaresCache := some r.1}, {cs with objectCounter := r.2})

/-- Modelled from the spec: NodeIndex's `nodeById(internal_id) -> RawNode | absent`
is not part of this source file (it lives in the `enterprise` modules);
per the spec, on duplicate internal ids the last write wins, so the scan
keeps the last matching node. -/
def nodeById (ns : List RawNode) (i : String) : Option RawNode :=
  ns.foldl (fun acc n => if n.id == i then some n else acc) none

/-- The identity and attribute content of an entity, erasing the object
identity (`serial`): the kind and the full backing raw node (whose fields
were installed as the entity's attributes). -/
def entityView (e : TypedEntity) : String × RawNode :=
  (e.kind, e.node)

/-- A sample technique node. -/
def nodeT1 : RawNode :=
  ⟨"attack-pattern--0001", "attack-pattern", [("name", "T1")]⟩

/-- A sample actor (intrusion-set) node. -/
def nodeA1 : RawNode :=
  ⟨"intrusion-set--0001", "intrusion-set", [("name", "G1")]⟩

/-- A sample graph-exchange document holding one technique and one actor. -/
def sampleDoc : GraphDoc :=
  ⟨some [nodeT1, nodeA1], 0⟩

/-- A sample provider returning `sampleDoc` and a one-record enrichment
document for every fetch. -/
def sampleProvider : DatasetProvider :=
  ⟨fun _ _ => sampleDoc, fun _ => ⟨1⟩⟩

/-- Class state before any document has been loaded. -/
def emptyClassState : ClassState :=
  ⟨none, none, 0, []⟩

/-- Class state after a successful load of the sample documents. -/
def loadedClassState : ClassState :=
  ⟨some sampleDoc, some ⟨1⟩, 0, []⟩

example : mangle "Attck" "__CONFIG_FILE" = "_Attck__CONFIG_FILE" := by decide
example : mangle "Configuration" "__CONFIG_FILE" = "_Configuration__CONFIG_FILE" := by decide
example : (attckInit sampleProvider false none none none true emptyClassState).2.2 =
    [Event.configSetCall none none, Event.mitreCall false false, Event.generatedDataCall false] := by decide
example : (techniquesProp (freshInstance false) loadedClassState).1 =
    .ok [⟨0, "attack-pattern", nodeT1⟩] := rfl
example : (techniquesProp (freshInstance false) loadedClassState).2.1.techniquesCache =
    some [⟨0, "attack-pattern", nodeT1⟩] := by decide
example : update sampleProvider (freshInstance false) loadedClassState = (loadedClassState, []) := rfl
example : nodeById [⟨"x", "attack-pattern", []⟩, ⟨"x", "malware", []⟩] "x" =
    some ⟨"x", "malware", []⟩ := by decide

/-- The entity-building loop keeps, in order, exactly the nodes whose
declared type equals the filter tag. -/
theorem buildEntities_map_node (tag : String) (ctr : Nat) (ns : List RawNode) :
    ((buildEntities tag ctr ns).1).map TypedEntity.node =
      ns.filter (fun n => n.type == tag) := by
  induction ns generalizing ctr with
  | nil => rfl
  | cons n rest ih =>
    cases h : (n.type == tag) with
    | true => simp [buildEntities, List.filter, h, ih]
    | false => simp [buildEntities, List.filter, h, ih]

/-- Every entity built by the loop carries the filter tag as its kind,
backs onto a node of the scanned list, and that node's declared type is
the tag. -/
theorem buildEntities_mem (tag : String) (ctr : Nat) (ns : List RawNode)
    (e : TypedEntity) (he : e ∈ (buildEntities tag ctr ns).1) :
    e.kind = tag ∧ e.node ∈ ns ∧ e.node.type = tag := by
  induction ns generalizing ctr with
  | nil => simp [buildEntities] at he
  | cons n rest ih =>
    cases h : (n.type == tag) with
    | true =>
      simp only [buildEntities, h, if_pos] at he
      rcases List.mem_cons.mp he with h1 | h1
      · subst h1
        exact ⟨rfl, List.mem_cons_self _ _, by simpa using h⟩
      · rcases ih (ctr + 1) h1 with ⟨hk, hm, ht⟩
        exact ⟨hk, List.mem_cons_of_mem _ hm, ht⟩
    | false =>
      simp only [buildEntities, h] at he
      rcases ih ctr he with ⟨hk, hm, ht⟩
      exact ⟨hk, List.mem_cons_of_mem _ hm, ht⟩

/-- The `nodeById` scan returns its accumulator when no node matches. -/
theorem nodeById_foldl_no_match (i : String) (l : List RawNode)
    (acc : Option RawNode) (h : ∀ x ∈ l, (x.id == i) = false) :
    l.foldl (fun acc n => if n.id == i then some n else acc) acc = acc := by
  induction l generalizing acc with
  | nil => rfl
  | cons x rest ih =>
    have hx := h x (List.mem_cons_self _ _)
    simp only [List.foldl, hx, if_neg]
    simp only [hx, Bool.false_eq_true, if_false]
    exact ih acc fun y hy => h y (List.mem_cons_of_mem _ hy)

/-- When internal ids are duplicate-free, `nodeById` recovers exactly the
node a given member id came from. -/
theorem nodeById_nodup (ns : List RawNode) (n : RawNode)
    (hnd : (ns.map RawNode.id).Nodup) (hm : n ∈ ns) :
    nodeById ns n.id = some n := by
  induction ns with
  | nil => simp at hm
  | cons m rest ih =>
    rw [List.map_cons, List.nodup_cons] at hnd
    obtain ⟨hnotin, hrest⟩ := hnd
    rcases List.mem_cons.mp hm with h1 | h1
    · subst h1
      have hall : ∀ x ∈ rest, (x.id == n.id) = false := by
        intro x hx
        have : x.id ∈ rest.map RawNode.id := List.mem_map_of_mem _ hx
        have hne : x.id ≠ n.id := fun hEq => hnotin (hEq ▸ this)
        simpa using hne
      simp only [nodeById, List.foldl, beq_self_eq_true, if_pos]
      exact nodeById_foldl_no_match _ _ _ hall
    · have hne : (m.id == n.id) = false := by
        have : n.id ∈ rest.map RawNode.id := List.mem_map_of_mem _ h1
        have hne' : m.id ≠ n.id := fun hEq => hnotin (hEq ▸ this)
        simpa using hne'
      have : nodeById (m :: rest) n.id = nodeById rest n.id := by
        simp only [nodeById, List.foldl, hne, Bool.false_eq_true, if_false]
      rw [this]
      exact ih hrest h1

/-- The method `__load_data` leaves the `Configuration` attribute dictionary alone. -/
theorem loadData_configAttrs (p : DatasetProvider) (s f : Bool) (cs : ClassState) :
    (loadData p s f cs).1.configAttrs = cs.configAttrs := by
  by_cases h1 : truthyGraph cs.enterpriseAttckJson <;>
  cases s <;>
  by_cases h2 : truthyDataset cs.enterpriseGeneratedDataJson <;>
  simp [loadData, h1, h2]

/-- When both class-level documents are truthy, `__load_data` is a no-op:
no fetch happens and the state is returned unchanged. -/
theorem loadData_loaded_noop (p : DatasetProvider) (s f : Bool) (cs : ClassState)
    (h1 : truthyGraph cs.enterpriseAttckJson = true)
    (h2 : truthyDataset cs.enterpriseGeneratedDataJson = true) :
    loadData p s f cs = (cs, []) := by
  unfold loadData
  simp [h1, h2]

/-- Every event `__load_data` emits is a `mitre` fetch with exactly the
given force and subtechniques flags, or a `generated_attck_data` fetch
with the given force flag. -/
theorem loadData_event_shape (p : DatasetProvider) (s f : Bool) (cs : ClassState)
    (e : Event) (he : e ∈ (loadData p s f cs).2) :
    e = Event.mitreCall f s ∨ e = Event.generatedDataCall f := by
  by_cases h1 : truthyGraph cs.enterpriseAttckJson <;>
  cases s <;>
  by_cases h2 : truthyDataset cs.enterpriseGeneratedDataJson <;>
  simp [loadData, h1, h2] at he <;> simp_all

/-- When the class-level graph document is falsy, `__load_data` fetches it
from the provider with the instance's subtechniques flag. -/
theorem loadData_mitre_mem (p : DatasetProvider) (s f : Bool) (cs : ClassState)
    (h : truthyGraph cs.enterpriseAttckJson = false) :
    Event.mitreCall f s ∈ (loadData p s f cs).2 := by
  cases s <;>
  by_cases h2 : truthyDataset cs.enterpriseGeneratedDataJson <;>
  simp [loadData, h, h2]

/-- After a successful first access, the built entity list sits in the
instance cache `self.__techniques`. -/
theorem techniquesProp_cache_of_ok (inst : AttckInstance) (cs : ClassState)
    (es : List TypedEntity) (i1 : AttckInstance) (c1 : ClassState)
    (h : techniquesProp inst cs = (.ok es, i1, c1)) :
    i1.techniquesCache = some es := by
  cases hc : inst.techniquesCache with
  | some es0 =>
    simp only [techniquesProp, hc, Prod.mk.injEq, Except.ok.injEq] at h
    obtain ⟨hes, hi, _⟩ := h
    subst hi
    rw [hc, hes]
  | none =>
    cases hg : getObjects cs.enterpriseAttckJson with
    | error e => simp [techniquesProp, hc, hg] at h
    | ok ns =>
      simp only [techniquesProp, hc, hg, Prod.mk.injEq, Except.ok.injEq] at h
      obtain ⟨hes, hi, _⟩ := h
      subst hi
      simp [hes]

/-- A populated `self.__techniques` cache short-circuits the property:
the cached list is returned and nothing changes. -/
theorem techniquesProp_cached (inst : AttckInstance) (cs : ClassState)
    (es : List TypedEntity) (h : inst.techniquesCache = some es) :
    techniquesProp inst cs = (.ok es, inst, cs) := by
  simp [techniquesProp, h]

/-- The first technique entity the sample document yields. -/
def entT1 : TypedEntity := ⟨0, "attack-pattern", nodeT1⟩

/-- The instance after a first successful `techniques` access. -/
def cachedInstance : AttckInstance :=
  {freshInstance false with techniquesCache := some [entT1]}

/-- The class state after a first successful `techniques` access: one
entity was constructed, so the allocation counter advanced to 1. -/
def advancedClassState : ClassState :=
  {loadedClassState with objectCounter := 1}

/-- C1: with the document set already loaded (both class attributes
truthy), `Attck.update()` — i.e. `__load_data(force=True)` — performs no
provider fetch at all and leaves the process-wide documents unchanged:
the guard `if not Attck.__ENTERPRISE_ATTCK_JSON` skips the fetch, so no
fresh force-refetched documents ever replace the cached ones, contrary to
the claim and to `update`'s own docstring. -/
theorem update_skips_reload_when_loaded (p : DatasetProvider)
    (inst : AttckInstance) (cs : ClassState)
    (h1 : truthyGraph cs.enterpriseAttckJson = true)
    (h2 : truthyDataset cs.enterpriseGeneratedDataJson = true) :
    update p inst cs = (cs, []) :=
  loadData_loaded_noop p inst.subtechniques true cs h1 h2

/-- Witness for C1's theorem at the loaded sample state. -/
theorem update_skips_reload_when_loaded_witness :
    truthyGraph loadedClassState.enterpriseAttckJson = true ∧
    truthyDataset loadedClassState.enterpriseGeneratedDataJson = true ∧
    update sampleProvider (freshInstance false) loadedClassState =
      (loadedClassState, []) :=
  ⟨by decide, by decide,
   update_skips_reload_when_loaded sampleProvider (freshInstance false)
     loadedClassState (by decide) (by decide)⟩

/-- A collection accessor's result is the OK list holding, in document
order, exactly one entity per node of the given declared type, each
entity tagged with that type and no entity for a node of another type. -/
def accessorReturnsFiltered (res : Except PyError (List TypedEntity))
    (tag : String) (ns : List RawNode) : Prop :=
  ∃ es, res = .ok es ∧
    es.map TypedEntity.node = ns.filter (fun n => n.type == tag) ∧
    ∀ e ∈ es, e.kind = tag

/-- C2: on a loaded graph document whose node collection is `ns`, each of
the six per-kind collection accessors returns exactly one entity for each
raw node whose `type` equals that kind's tag (`x-mitre-tactic`,
`attack-pattern`, `course-of-action`, `intrusion-set`, `tool`,
`malware`), in document order, and none for nodes of other types. -/
theorem collection_accessors_filter_by_declared_type
    (d : GraphDoc) (ns : List RawNode) (inst : AttckInstance) (cs : ClassState)
    (hd : cs.enterpriseAttckJson = some d) (ho : d.objects = some ns)
    (h1 : inst.tacticsCache = none) (h2 : inst.techniquesCache = none)
    (h3 : inst.mitigationsCache = none) (h4 : inst.actorsCache = none)
    (h5 : inst.toolsCache = none) (h6 : inst.malwaresCache = none) :
    accessorReturnsFiltered (tacticsProp inst cs).1 "x-mitre-tactic" ns ∧
    accessorReturnsFiltered (techniquesProp inst cs).1 "attack-pattern" ns ∧
    accessorReturnsFiltered (mitigationsProp inst cs).1 "course-of-action" ns ∧
    accessorReturnsFiltered (actorsProp inst cs).1 "intrusion-set" ns ∧
    accessorReturnsFiltered (toolsProp inst cs).1 "tool" ns ∧
    accessorReturnsFiltered (malwaresProp inst cs).1 "malware" ns := by
  refine ⟨?_, ?_, ?_, ?_, ?_, ?_⟩
  · have hres : (tacticsProp inst cs).1 =
        .ok (buildEntities "x-mitre-tactic" cs.objectCounter ns).1 := by
      simp [tacticsProp, h1, getObjects, hd, ho]
    exact ⟨_, hres, buildEntities_map_node _ _ _,
      fun e he => (buildEntities_mem _ _ _ e he).1⟩
  · have hres : (techniquesProp inst cs).1 =
        .ok (buildEntities "attack-pattern" cs.objectCounter ns).1 := by
      simp [techniquesProp, h2, getObjects, hd, ho]
    exact ⟨_, hres, buildEntities_map_node _ _ _,
      fun e he => (buildEntities_mem _ _ _ e he).1⟩
  · have hres : (mitigationsProp inst cs).1 =
        .ok (buildEntities "course-of-action" cs.objectCounter ns).1 := by
      simp [mitigationsProp, h3, getObjects, hd, ho]
    exact ⟨_, hres, buildEntities_map_node _ _ _,
      fun e he => (buildEntities_mem _ _ _ e he).1⟩
  · have hres : (actorsProp inst cs).1 =
        .ok (buildEntities "intrusion-set" cs.objectCounter ns).1 := by
      simp [actorsProp, h4, getObjects, hd, ho]
    exact ⟨_, hres, buildEntities_map_node _ _ _,
      fun e he => (buildEntities_mem _ _ _ e he).1⟩
  · have hres : (toolsProp inst cs).1 =
        .ok (buildEntities "tool" cs.objectCounter ns).1 := by
      simp [toolsProp, h5, getObjects, hd, ho]
    exact ⟨_, hres, buildEntities_map_node _ _ _,
      fun e he => (buildEntities_mem _ _ _ e he).1⟩
  · have hres : (malwaresProp inst cs).1 =
        .ok (buildEntities "malware" cs.objectCounter ns).1 := by
      simp [malwaresProp, h6, getObjects, hd, ho]
    exact ⟨_, hres, buildEntities_map_node _ _ _,
      fun e he => (buildEntities_mem _ _ _ e he).1⟩

/-- Witness for C2's theorem at the loaded sample state. -/
theorem collection_accessors_filter_by_declared_type_witness :
    loadedClassState.enterpriseAttckJson = some sampleDoc ∧
    sampleDoc.objects = some [nodeT1, nodeA1] ∧
    accessorReturnsFiltered (tacticsProp (freshInstance false) loadedClassState).1
      "x-mitre-tactic" [nodeT1, nodeA1] ∧
    accessorReturnsFiltered (techniquesProp (freshInstance false) loadedClassState).1
      "attack-pattern" [nodeT1, nodeA1] ∧
    accessorReturnsFiltered (mitigationsProp (freshInstance false) loadedClassState).1
      "course-of-action" [nodeT1, nodeA1] ∧
    accessorReturnsFiltered (actorsProp (freshInstance false) loadedClassState).1
      "intrusion-set" [nodeT1, nodeA1] ∧
    accessorReturnsFiltered (toolsProp (freshInstance false) loadedClassState).1
      "tool" [nodeT1, nodeA1] ∧
    accessorReturnsFiltered (malwaresProp (freshInstance false) loadedClassState).1
      "malware" [nodeT1, nodeA1] := by
  have main := collection_accessors_filter_by_declared_type sampleDoc
    [nodeT1, nodeA1] (freshInstance false) loadedClassState
    rfl rfl rfl rfl rfl rfl rfl rfl
  exact ⟨rfl, rfl, main.1, main.2.1, main.2.2.1, main.2.2.2.1,
    main.2.2.2.2.1, main.2.2.2.2.2⟩

/-- C3 counterexample: on the sample state, the first `techniques` access
populates the instance cache `self.__techniques`, and a second access
returns the very same entity list — same entities, serial number 0
included — while the process-wide allocation counter stays at 1, so no
new entity object is constructed on the second access; the claimed
fresh-construction (no instance cache) behavior is false. -/
theorem techniques_access_not_fresh_counterexample :
    techniquesProp (freshInstance false) loadedClassState =
      (.ok [entT1], cachedInstance, advancedClassState) ∧
    cachedInstance.techniquesCache ≠ none ∧
    techniquesProp cachedInstance advancedClassState =
      (.ok [entT1], cachedInstance, advancedClassState) ∧
    (techniquesProp cachedInstance advancedClassState).2.2.objectCounter =
      (techniquesProp (freshInstance false) loadedClassState).2.2.objectCounter :=
  ⟨rfl, by decide, rfl, rfl⟩

/-- C3 (amended): entities are constructed on the first access of a
collection property and cached on the instance (`self.__techniques`);
a second access without an intervening reload returns the cached list
itself, constructing no new entity objects. -/
theorem techniques_access_caches_entities (inst : AttckInstance)
    (cs : ClassState) (es : List TypedEntity) (i1 : AttckInstance)
    (c1 : ClassState) (h : techniquesProp inst cs = (.ok es, i1, c1)) :
    i1.techniquesCache = some es ∧
    techniquesProp i1 c1 = (.ok es, i1, c1) :=
  ⟨techniquesProp_cache_of_ok inst cs es i1 c1 h,
   techniquesProp_cached i1 c1 es (techniquesProp_cache_of_ok inst cs es i1 c1 h)⟩

/-- Witness for C3's amended theorem at the sample state. -/
theorem techniques_access_caches_entities_witness :
    techniquesProp (freshInstance false) loadedClassState =
      (.ok [entT1], cachedInstance, advancedClassState) ∧
    cachedInstance.techniquesCache = some [entT1] ∧
    techniquesProp cachedInstance advancedClassState =
      (.ok [entT1], cachedInstance, advancedClassState) :=
  ⟨rfl,
   (techniques_access_caches_entities (freshInstance false) loadedClassState
     [entT1] cachedInstance advancedClassState rfl).1,
   (techniques_access_caches_entities (freshInstance false) loadedClassState
     [entT1] cachedInstance advancedClassState rfl).2⟩

/-- C4: two successive `techniques` accesses without an intervening
`update()` yield entity sequences with identical identities and attribute
values (the serial modelling object identity is erased by `entityView`). -/
theorem techniques_twice_same_views (inst : AttckInstance) (cs : ClassState)
    (es1 es2 : List TypedEntity) (i1 i2 : AttckInstance) (c1 c2 : ClassState)
    (hfirst : techniquesProp inst cs = (.ok es1, i1, c1))
    (hsecond : techniquesProp i1 c1 = (.ok es2, i2, c2)) :
    es2.map entityView = es1.map entityView := by
  have hcache := techniquesProp_cache_of_ok inst cs es1 i1 c1 hfirst
  have hagain := techniquesProp_cached i1 c1 es1 hcache
  rw [hsecond] at hagain
  simp only [Prod.mk.injEq, Except.ok.injEq] at hagain
  rw [hagain.1]

/-- Witness for C4's theorem at the sample state. -/
theorem techniques_twice_same_views_witness :
    techniquesProp (freshInstance false) loadedClassState =
      (.ok [entT1], cachedInstance, advancedClassState) ∧
    techniquesProp cachedInstance advancedClassState =
      (.ok [entT1], cachedInstance, advancedClassState) ∧
    ([entT1].map entityView = [entT1].map entityView) :=
  ⟨rfl, rfl,
   techniques_twice_same_views (freshInstance false) loadedClassState
     [entT1] [entT1] cachedInstance cachedInstance advancedClassState
     advancedClassState rfl rfl⟩

/-- A technique node whose internal id collides with a later malware
node's id. -/
def dupNodeT : RawNode := ⟨"x", "attack-pattern", []⟩

/-- A malware node reusing the technique node's internal id. -/
def dupNodeM : RawNode := ⟨"x", "malware", []⟩

/-- A loaded class state whose graph document carries the duplicate-id
node pair. -/
def dupClassState : ClassState :=
  ⟨some ⟨some [dupNodeT, dupNodeM], 0⟩, some ⟨1⟩, 0, []⟩

/-- C5 counterexample: on a document with a duplicate internal id, the
techniques accessor yields an entity of kind `attack-pattern` backed by
the id-`x` technique node, but `nodeById` (last write wins per the spec)
recovers the id-`x` malware node, whose declared type differs from the
entity's kind — the round-trip half of the claim fails. -/
theorem entity_roundtrip_counterexample :
    (techniquesProp (freshInstance false) dupClassState).1 =
      .ok [⟨0, "attack-pattern", dupNodeT⟩] ∧
    nodeById [dupNodeT, dupNodeM] "x" = some dupNodeM ∧
    dupNodeM.type ≠ "attack-pattern" :=
  ⟨rfl, by decide, by decide⟩

/-- C5 (amended): every entity built by a collection accessor's loop has
kind equal to its backing node's declared type, and the backing node is a
member of the loaded node collection, held unchanged; provided the
document's internal ids are duplicate-free, looking the entity's id back
up with `nodeById` recovers exactly that backing node, whose declared
type therefore equals the entity's kind. -/
theorem entity_kind_and_roundtrip_unique_ids (tag : String) (ctr : Nat)
    (ns : List RawNode) (e : TypedEntity)
    (he : e ∈ (buildEntities tag ctr ns).1)
    (hnd : (ns.map RawNode.id).Nodup) :
    e.kind = tag ∧ e.node.type = e.kind ∧ e.node ∈ ns ∧
    nodeById ns e.node.id = some e.node := by
  obtain ⟨hk, hm, ht⟩ := buildEntities_mem tag ctr ns e he
  exact ⟨hk, by rw [hk, ht], hm, nodeById_nodup ns e.node hnd hm⟩

/-- Witness for C5's amended theorem on the sample node collection. -/
theorem entity_kind_and_roundtrip_unique_ids_witness :
    entT1 ∈ (buildEntities "attack-pattern" 0 [nodeT1, nodeA1]).1 ∧
    ([nodeT1, nodeA1].map RawNode.id).Nodup ∧
    (entT1.kind = "attack-pattern" ∧ entT1.node.type = entT1.kind ∧
     entT1.node ∈ [nodeT1, nodeA1] ∧
     nodeById [nodeT1, nodeA1] entT1.node.id = some entT1.node) :=
  ⟨by decide, by decide,
   entity_kind_and_roundtrip_unique_ids "attack-pattern" 0 [nodeT1, nodeA1]
     entT1 (by decide) (by decide)⟩

/-- Every event `__init__` emits is one of the two `Configuration().set`
calls or a fetch with the force flag `False` (the `force` argument of the
constructor is never forwarded to `__load_data`). -/
theorem attckInit_event_shape (p : DatasetProvider) (sub : Bool)
    (aj dj cp : Option String) (f : Bool) (cs : ClassState) (e : Event)
    (he : e ∈ (attckInit p sub aj dj cp f cs).2.2) :
    e = Event.configSetCall aj dj ∨ e = Event.configSetCall none none ∨
    e = Event.mitreCall false sub ∨ e = Event.generatedDataCall false := by
  simp only [attckInit, List.append_assoc, List.mem_append] at he
  rcases he with he | he | he
  · by_cases haj : (aj.isSome || dj.isSome) = true
    · simp [haj] at he
      simp [he]
    · simp [haj] at he
  · by_cases hf : f = true
    · simp [hf] at he
      simp [he]
    · simp [hf] at he
  · rcases loadData_event_shape p sub false _ e he with h | h
    · exact Or.inr (Or.inr (Or.inl h))
    · exact Or.inr (Or.inr (Or.inr h))

/-- C6 counterexample: constructing with `force=True` on an unloaded
process emits a `Configuration().set()` call and fetches both documents
with `force=False` — no provider call carries the force flag, so the
claim that the load step requests the documents with force set is false. -/
theorem force_constructor_counterexample :
    (attckInit sampleProvider false none none none true emptyClassState).2.2 =
      [Event.configSetCall none none, Event.mitreCall false false,
       Event.generatedDataCall false] ∧
    Event.mitreCall true false ∉
      (attckInit sampleProvider false none none none true emptyClassState).2.2 ∧
    Event.mitreCall true true ∉
      (attckInit sampleProvider false none none none true emptyClassState).2.2 ∧
    Event.generatedDataCall true ∉
      (attckInit sampleProvider false none none none true emptyClassState).2.2 := by
  decide

/-- C6 (amended): constructing with `force=True` resets the configuration
(`Configuration().set()` is called) but does not force-reload the
documents: any fetch the constructor performs passes `force=False`, since
`__init__` calls `__load_data()` without forwarding its `force` argument. -/
theorem force_constructor_resets_config_only (p : DatasetProvider)
    (sub : Bool) (aj dj cp : Option String) (cs : ClassState) :
    Event.configSetCall none none ∈ (attckInit p sub aj dj cp true cs).2.2 ∧
    Event.mitreCall true false ∉ (attckInit p sub aj dj cp true cs).2.2 ∧
    Event.mitreCall true true ∉ (attckInit p sub aj dj cp true cs).2.2 ∧
    Event.generatedDataCall true ∉ (attckInit p sub aj dj cp true cs).2.2 := by
  refine ⟨?_, ?_, ?_, ?_⟩
  · simp [attckInit, List.mem_append]
  · intro hmem
    rcases attckInit_event_shape p sub aj dj cp true cs _ hmem with h | h | h | h <;>
      simp at h
  · intro hmem
    rcases attckInit_event_shape p sub aj dj cp true cs _ hmem with h | h | h | h <;>
      simp at h
  · intro hmem
    rcases attckInit_event_shape p sub aj dj cp true cs _ hmem with h | h | h | h <;>
      simp at h

/-- The class state produced by a first construction (no sub-techniques)
on an unloaded process. -/
def afterFirstInit : ClassState :=
  (attckInit sampleProvider false none none none false emptyClassState).1

/-- C7 counterexample: once a first object has loaded the documents
without sub-techniques, constructing a second object with
`subtechniques=True` performs no fetch at all — in particular no `mitre`
fetch with sub-technique expansion — and leaves the shared documents
unchanged, so the second object's graph document was not fetched with
`subtechniques=true`. -/
theorem subtechniques_constructor_counterexample :
    (attckInit sampleProvider true none none none false afterFirstInit).2.2 = [] ∧
    Event.mitreCall false true ∉
      (attckInit sampleProvider true none none none false afterFirstInit).2.2 ∧
    Event.mitreCall true true ∉
      (attckInit sampleProvider true none none none false afterFirstInit).2.2 ∧
    (attckInit sampleProvider true none none none false afterFirstInit).1 =
      afterFirstInit := by
  decide

/-- C7 (amended): when the process-wide graph document is not yet loaded
(the class attribute is falsy), constructing with `subtechniques=True`
fetches the graph document from the provider with sub-technique expansion
enabled (`subtechniques=true`, `force=false`); otherwise the already
loaded document is reused and no fetch occurs. -/
theorem subtechniques_fetch_when_unloaded (p : DatasetProvider)
    (aj dj cp : Option String) (f : Bool) (cs : ClassState)
    (h : truthyGraph cs.enterpriseAttckJson = false) :
    Event.mitreCall false true ∈ (attckInit p true aj dj cp f cs).2.2 := by
  have hjson : (applyConfigPath cp cs).enterpriseAttckJson =
      cs.enterpriseAttckJson := by
    cases cp <;> simp [applyConfigPath]
  have hmem := loadData_mitre_mem p true false (applyConfigPath cp cs)
    (by rw [hjson]; exact h)
  simp only [attckInit, List.append_assoc, List.mem_append]
  exact Or.inr (Or.inr hmem)

/-- Witness for C7's amended theorem on the unloaded sample state. -/
theorem subtechniques_fetch_when_unloaded_witness :
    truthyGraph emptyClassState.enterpriseAttckJson = false ∧
    Event.mitreCall false true ∈
      (attckInit sampleProvider true none none none false emptyClassState).2.2 :=
  ⟨by decide,
   subtechniques_fetch_when_unloaded sampleProvider none none none false
     emptyClassState (by decide)⟩

/-- A graph document missing the top-level `objects` key (but non-empty,
hence truthy). -/
def schemalessDoc : GraphDoc := ⟨none, 1⟩

/-- A provider returning the schemaless graph document. -/
def badProvider : DatasetProvider :=
  ⟨fun _ _ => schemalessDoc, fun _ => ⟨1⟩⟩

/-- The class state after loading from `badProvider`. -/
def badLoadedClassState : ClassState :=
  ⟨some schemalessDoc, some ⟨1⟩, 0, []⟩

/-- C8 counterexample: loading a graph document that lacks the `objects`
collection completes normally — `__load_data` performs no validation and
stores the document as-is, raising no `SchemaError` — and the failure
surfaces only later, as a `KeyError`, when the techniques accessor first
subscripts the document. -/
theorem missing_objects_counterexample :
    (loadData badProvider false false emptyClassState).1.enterpriseAttckJson =
      some schemalessDoc ∧
    (techniquesProp (freshInstance false)
        (loadData badProvider false false emptyClassState).1).1 =
      .error .keyError :=
  ⟨rfl, rfl⟩

/-- C8 (amended): loading never validates the document — `__load_data`
stores whatever the provider returned — and a graph document lacking the
`objects` key makes the first collection-accessor call fail with a
`KeyError` at access time, not with a `SchemaError` at load time. -/
theorem missing_objects_fails_at_accessor (p : DatasetProvider)
    (cs0 : ClassState) (d : GraphDoc) (inst : AttckInstance) (cs : ClassState)
    (hG : truthyGraph cs0.enterpriseAttckJson = false)
    (hobj : d.objects = none) (hcs : cs.enterpriseAttckJson = some d)
    (hcache : inst.techniquesCache = none) :
    (loadData p false false cs0).1.enterpriseAttckJson =
      some (p.mitre false false) ∧
    (techniquesProp inst cs).1 = .error .keyError := by
  constructor
  · by_cases h2 : truthyDataset cs0.enterpriseGeneratedDataJson <;>
      simp [loadData, hG, h2]
  · simp [techniquesProp, hcache, getObjects, hcs, hobj]

/-- Witness for C8's amended theorem at the schemaless sample state. -/
theorem missing_objects_fails_at_accessor_witness :
    truthyGraph emptyClassState.enterpriseAttckJson = false ∧
    schemalessDoc.objects = none ∧
    badLoadedClassState.enterpriseAttckJson = some schemalessDoc ∧
    (freshInstance false).techniquesCache = none ∧
    ((loadData badProvider false false emptyClassState).1.enterpriseAttckJson =
       some (badProvider.mitre false false) ∧
     (techniquesProp (freshInstance false) badLoadedClassState).1 =
       .error .keyError) :=
  ⟨by decide, rfl, rfl, rfl,
   missing_objects_fails_at_accessor badProvider emptyClassState schemalessDoc
     (freshInstance false) badLoadedClassState (by decide) rfl rfl rfl⟩

/-- When both class-level documents are loaded and truthy, every event a
construction emits is one of the `Configuration().set` calls: no fetch
reaches the provider. -/
theorem attckInit_loaded_event_shape (p : DatasetProvider) (sub : Bool)
    (aj dj cp : Option String) (f : Bool) (cs : ClassState)
    (h1 : truthyGraph cs.enterpriseAttckJson = true)
    (h2 : truthyDataset cs.enterpriseGeneratedDataJson = true)
    (e : Event) (he : e ∈ (attckInit p sub aj dj cp f cs).2.2) :
    e = Event.configSetCall aj dj ∨ e = Event.configSetCall none none := by
  have hja : (applyConfigPath cp cs).enterpriseAttckJson =
      cs.enterpriseAttckJson := by cases cp <;> simp [applyConfigPath]
  have hjd : (applyConfigPath cp cs).enterpriseGeneratedDataJson =
      cs.enterpriseGeneratedDataJson := by cases cp <;> simp [applyConfigPath]
  have hnoop := loadData_loaded_noop p sub false (applyConfigPath cp cs)
    (by rw [hja]; exact h1) (by rw [hjd]; exact h2)
  simp only [attckInit, hnoop, List.append_assoc, List.append_nil,
    List.mem_append] at he
  rcases he with he | he
  · by_cases haj : (aj.isSome || dj.isSome) = true
    · simp [haj] at he
      simp [he]
    · simp [haj] at he
  · by_cases hf : f = true
    · simp [hf] at he
      simp [he]
    · simp [hf] at he

/-- C9: the loaded documents live in class-level state: once they are
loaded (both class attributes truthy), any further construction — with
any `subtechniques`, path or `force` options — reuses them unchanged and
performs no provider fetch at all. -/
theorem attck_reuses_class_level_documents (p : DatasetProvider) (sub : Bool)
    (aj dj cp : Option String) (f : Bool) (cs : ClassState)
    (h1 : truthyGraph cs.enterpriseAttckJson = true)
    (h2 : truthyDataset cs.enterpriseGeneratedDataJson = true) :
    (attckInit p sub aj dj cp f cs).1.enterpriseAttckJson =
      cs.enterpriseAttckJson ∧
    (attckInit p sub aj dj cp f cs).1.enterpriseGeneratedDataJson =
      cs.enterpriseGeneratedDataJson ∧
    Event.mitreCall false false ∉ (attckInit p sub aj dj cp f cs).2.2 ∧
    Event.mitreCall false true ∉ (attckInit p sub aj dj cp f cs).2.2 ∧
    Event.mitreCall true false ∉ (attckInit p sub aj dj cp f cs).2.2 ∧
    Event.mitreCall true true ∉ (attckInit p sub aj dj cp f cs).2.2 ∧
    Event.generatedDataCall false ∉ (attckInit p sub aj dj cp f cs).2.2 ∧
    Event.generatedDataCall true ∉ (attckInit p sub aj dj cp f cs).2.2 := by
  have hja : (applyConfigPath cp cs).enterpriseAttckJson =
      cs.enterpriseAttckJson := by cases cp <;> simp [applyConfigPath]
  have hjd : (applyConfigPath cp cs).enterpriseGeneratedDataJson =
      cs.enterpriseGeneratedDataJson := by cases cp <;> simp [applyConfigPath]
  have hnoop := loadData_loaded_noop p sub false (applyConfigPath cp cs)
    (by rw [hja]; exact h1) (by rw [hjd]; exact h2)
  refine ⟨?_, ?_, ?_, ?_, ?_, ?_, ?_, ?_⟩
  · simp only [attckInit, hnoop]
    exact hja
  · simp only [attckInit, hnoop]
    exact hjd
  · intro hmem
    rcases attckInit_loaded_event_shape p sub aj dj cp f cs h1 h2 _ hmem with h | h <;>
      simp at h
  · intro hmem
    rcases attckInit_loaded_event_shape p sub aj dj cp f cs h1 h2 _ hmem with h | h <;>
      simp at h
  · intro hmem
    rcases attckInit_loaded_event_shape p sub aj dj cp f cs h1 h2 _ hmem with h | h <;>
      simp at h
  · intro hmem
    rcases attckInit_loaded_event_shape p sub aj dj cp f cs h1 h2 _ hmem with h | h <;>
      simp at h
  · intro hmem
    rcases attckInit_loaded_event_shape p sub aj dj cp f cs h1 h2 _ hmem with h | h <;>
      simp at h
  · intro hmem
    rcases attckInit_loaded_event_shape p sub aj dj cp f cs h1 h2 _ hmem with h | h <;>
      simp at h

/-- Witness for C9's theorem: a second construction with
`subtechniques=True` on the loaded sample state. -/
theorem attck_reuses_class_level_documents_witness :
    truthyGraph loadedClassState.enterpriseAttckJson = true ∧
    truthyDataset loadedClassState.enterpriseGeneratedDataJson = true ∧
    ((attckInit sampleProvider true none none none true loadedClassState).1.enterpriseAttckJson =
       loadedClassState.enterpriseAttckJson ∧
     (attckInit sampleProvider true none none none true loadedClassState).1.enterpriseGeneratedDataJson =
       loadedClassState.enterpriseGeneratedDataJson ∧
     Event.mitreCall false false ∉
       (attckInit sampleProvider true none none none true loadedClassState).2.2 ∧
     Event.mitreCall false true ∉
       (attckInit sampleProvider true none none none true loadedClassState).2.2 ∧
     Event.mitreCall true false ∉
       (attckInit sampleProvider true none none none true loadedClassState).2.2 ∧
     Event.mitreCall true true ∉
       (attckInit sampleProvider true none none none true loadedClassState).2.2 ∧
     Event.generatedDataCall false ∉
       (attckInit sampleProvider true none none none true loadedClassState).2.2 ∧
     Event.generatedDataCall true ∉
       (attckInit sampleProvider true none none none true loadedClassState).2.2) :=
  ⟨by decide, by decide,
   attck_reuses_class_level_documents sampleProvider true none none none true
     loadedClassState (by decide) (by decide)⟩

/-- C10: the assignment `Configuration.__CONFIG_FILE = config_path`
inside class `Attck` is mangled to the attribute `_Attck__CONFIG_FILE` on
the `Configuration` class object, while `Configuration`'s own private
attribute mangles to `_Configuration__CONFIG_FILE`; after construction
with a `config_path`, the former holds the supplied path and the latter —
the one `Configuration` itself reads — is unchanged. -/
theorem config_path_mangled_assignment (p : DatasetProvider) (sub : Bool)
    (aj dj : Option String) (cp : String) (f : Bool) (cs : ClassState) :
    mangle "Attck" "__CONFIG_FILE" = "_Attck__CONFIG_FILE" ∧
    mangle "Configuration" "__CONFIG_FILE" = "_Configuration__CONFIG_FILE" ∧
    List.lookup "_Attck__CONFIG_FILE"
      (attckInit p sub aj dj (some cp) f cs).1.configAttrs = some cp ∧
    List.lookup "_Configuration__CONFIG_FILE"
      (attckInit p sub aj dj (some cp) f cs).1.configAttrs =
      List.lookup "_Configuration__CONFIG_FILE" cs.configAttrs := by
  have hcfg : (attckInit p sub aj dj (some cp) f cs).1.configAttrs =
      setAttr cs.configAttrs "_Attck__CONFIG_FILE" cp := by
    simp only [attckInit]
    rw [loadData_configAttrs]
    simp [applyConfigPath,
      (by decide : mangle "Attck" "__CONFIG_FILE" = "_Attck__CONFIG_FILE")]
  refine ⟨by decide, by decide, ?_, ?_⟩
  · rw [hcfg]
    simp [setAttr, List.lookup]
  · rw [hcfg]
    simp [setAttr, List.lookup,
      (by decide :
        (("_Configuration__CONFIG_FILE" : String) == "_Attck__CONFIG_FILE") = false)]

end PyAttck
